import Mathlib

/-!
Shallow embedding of a slice of eforw/mattermost-server:
the `users` password functions (src/unnamed/part_000), and the api4
scheme/preference HTTP handlers (src/api4/scheme.go, src/api4/preference.go)
together with the request-context framework they are built on.

External collaborators (the session/permission oracle, the license oracle and
the business-logic facade) are modelled as fields of an `Env` record; each
handler becomes a pure function from the environment and its inputs to a
`HandlerResult` recording the terminal request error, the ordered list of
business-facade calls made, and the audit records emitted on exit.
-/

namespace Mattermost

/-- Application error as carried by the request context: a machine readable
identifier and an HTTP status (the two components of `model.AppError` the
handlers in this slice inspect or construct). -/
structure AppError where
  id : String
  status : Nat
deriving DecidableEq, Repr

/-- Modelled from the spec: `Context.SetInvalidParam` / the Validation Chain's
failure value (web/context.go is not part of the provided source slice).  A
RequestError of kind InvalidParameter carries the offending field's identifier
and HTTP status 400. -/
def invalidParamError (field : String) : AppError :=
  { id := field, status := 400 }

/-- Modelled from the spec: `Context.SetPermissionError` — a RequestError of
kind PermissionDenied whose identifier is the required permission's id, with
HTTP status 403. -/
def permissionError (permissionId : String) : AppError :=
  { id := permissionId, status := 403 }

/-- `model.PermissionSysconsoleWriteUserManagementPermissions` (id only). -/
def PermissionSysconsoleWriteUserManagementPermissions : String :=
  "sysconsole_write_user_management_permissions"

/-- `model.PermissionSysconsoleReadUserManagementPermissions` (id only). -/
def PermissionSysconsoleReadUserManagementPermissions : String :=
  "sysconsole_read_user_management_permissions"

/-- `model.PermissionSysconsoleReadUserManagementTeams` (id only). -/
def PermissionSysconsoleReadUserManagementTeams : String :=
  "sysconsole_read_user_management_teams"

/-- `model.PermissionSysconsoleReadUserManagementChannels` (id only). -/
def PermissionSysconsoleReadUserManagementChannels : String :=
  "sysconsole_read_user_management_channels"

/-- `model.PermissionEditOtherUsers` (id only). -/
def PermissionEditOtherUsers : String := "edit_other_users"

/-- `model.PermissionReadChannel` (id only). -/
def PermissionReadChannel : String := "read_channel"

/-- `model.SchemeScopeTeam`. -/
def SchemeScopeTeam : String := "team"

/-- `model.SchemeScopeChannel`. -/
def SchemeScopeChannel : String := "channel"

/-- `model.PreferenceCategoryFlaggedPost`. -/
def PreferenceCategoryFlaggedPost : String := "flagged_post"

/-- A permission scheme; only the fields this slice reads are modelled
(`Scope` drives the scope-mismatch checks, `Id` identifies the record). -/
structure Scheme where
  id : String
  scope : String
deriving DecidableEq, Repr

/-- A scheme patch body (`model.SchemePatch`); the handlers treat it opaquely. -/
structure SchemePatch where
  name : Option String
  displayName : Option String
  description : Option String
deriving DecidableEq, Repr

/-- `model.Preference`: the fields the preference handlers read. -/
structure Preference where
  userId : String
  category : String
  name : String
  value : String
deriving DecidableEq, Repr

/-- A post; only `ChannelId` is read by this slice. -/
structure Post where
  id : String
  channelId : String
deriving DecidableEq, Repr

end Mattermost

namespace Users

open Mattermost

/-! ### `users` package (src/unnamed/part_000) -/

/-- `model.User`: the two fields `CheckUserPassword`'s slice can touch —
`Username` (sent to the IAM endpoint) and `Password` (the stored hash, which
the patched `CheckUserPassword` never reads). -/
structure User where
  username : String
  password : String
deriving DecidableEq, Repr

/-- The external IAM endpoint, as an oracle: `post username password` returns
`none` when the HTTP POST itself fails and `some status` when a response with
that HTTP status code arrives.  This stands for
`http.Post("https://iam.pajak.or.id/api/authentication", ...)` with the JSON
body `\x7b"username": username, "password": password\x7d`. -/
structure IamOracle where
  post : String → String → Option Nat

/-- `ValidateIAM(username, password)`: POSTs the username and plaintext
password to the IAM endpoint; returns `false` on transport error, `true` iff
the response status is 200. -/
def ValidateIAM (iam : IamOracle) (username password : String) : Bool :=
  match iam.post username password with
  | none => false
  | some status => status == 200

/-- `NewErrInvalidPassword(id)`: the invalid-password error, carrying the id. -/
def NewErrInvalidPassword (id : String) : String := id

/-- `CheckUserPassword(user, password)` (the patched version in the source):
returns an error unless `ValidateIAM(user.Username, password)` is `true`.
`none` means the nil error (password accepted). -/
def CheckUserPassword (iam : IamOracle) (user : User) (password : String) :
    Option String :=
  if ValidateIAM iam user.username password != true then
    some (NewErrInvalidPassword "")
  else
    none

/-- `model.PasswordSettings`: minimum length and the four character-class
flags (each a `*bool` pointer in Go, always set after config defaults). -/
structure PasswordSettings where
  minimumLength : Nat
  lowercase : Bool
  uppercase : Bool
  number : Bool
  symbol : Bool
deriving DecidableEq, Repr

/-- `model.PasswordMaximumLength`. -/
def PasswordMaximumLength : Nat := 64

/-- `model.LowercaseLetters` (constant of the external `model` package). -/
def LowercaseLetters : String := "abcdefghijklmnopqrstuvwxyz"

/-- `model.UppercaseLetters` (constant of the external `model` package). -/
def UppercaseLetters : String := "ABCDEFGHIJKLMNOPQRSTUVWXYZ"

/-- `model.NUMBERS` (constant of the external `model` package). -/
def NUMBERS : String := "0123456789"

/-- `model.SYMBOLS` (constant of the external `model` package). -/
def SYMBOLS : String := " !\"\\#$%&'()*+,-./:;<=>?@[]^_`|~"

/-- Go's `strings.ContainsAny(s, chars)`: some character of `s` is in `chars`. -/
def containsAny (s chars : String) : Bool :=
  s.any (fun c => chars.contains c)

/-- `IsPasswordValidWithSettings(password, settings)`: `none` is the nil
error; `some id` is `NewErrInvalidPassword(id)`.  Translated statement by
statement: `isError` is latched by the length check and by each enabled
character-class check, while the id suffix for an enabled flag is appended
unconditionally. -/
def IsPasswordValidWithSettings (password : String)
    (settings : PasswordSettings) : Option String :=
  let id0 := "model.user.is_valid.pwd"
  let isError0 : Bool :=
    password.length < settings.minimumLength ||
      password.length > PasswordMaximumLength
  let isError1 : Bool :=
    if settings.lowercase then
      isError0 || !containsAny password LowercaseLetters
    else isError0
  let id1 := if settings.lowercase then id0 ++ "_lowercase" else id0
  let isError2 : Bool :=
    if settings.uppercase then
      isError1 || !containsAny password UppercaseLetters
    else isError1
  let id2 := if settings.uppercase then id1 ++ "_uppercase" else id1
  let isError3 : Bool :=
    if settings.number then
      isError2 || !containsAny password NUMBERS
    else isError2
  let id3 := if settings.number then id2 ++ "_number" else id2
  let isError4 : Bool :=
    if settings.symbol then
      isError3 || !containsAny password SYMBOLS
    else isError3
  let id4 := if settings.symbol then id3 ++ "_symbol" else id3
  if isError4 then some (NewErrInvalidPassword (id4 ++ ".app_error")) else none

/-- The error id `IsPasswordValidWithSettings` builds, as a function of the
settings alone: the base id with the suffix of every enabled flag appended, in
declaration order, then `".app_error"`. -/
def passwordErrorId (settings : PasswordSettings) : String :=
  "model.user.is_valid.pwd" ++
    (if settings.lowercase then "_lowercase" else "") ++
    (if settings.uppercase then "_uppercase" else "") ++
    (if settings.number then "_number" else "") ++
    (if settings.symbol then "_symbol" else "") ++ ".app_error"

end Users

namespace Api4

open Mattermost

/-! ### Request-context framework (web/context.go is not in the slice;
modelled from the spec) and the api4 handlers (src/api4/scheme.go,
src/api4/preference.go). -/

/-- The typed request parameters (`web.Params`); a missing field is the empty
string, `Scope`/`Page`/`PerPage` carry their parsed defaults. -/
structure Params where
  userId : String
  schemeId : String
  category : String
  preferenceName : String
  scope : String
  page : Nat
  perPage : Nat
deriving DecidableEq, Repr

/-- Modelled from the spec: the Request Context — the parameter store plus the
single RequestError slot (`c.Err`), shared by the Validation Chain and the
handler body. -/
structure Context where
  params : Params
  err : Option AppError
deriving DecidableEq, Repr

/-- Modelled from the spec: `c.RequireUserId()` — a no-op once the error slot
is non-empty; otherwise latches InvalidParameter "user_id" (400) when the
field is absent/empty. -/
def Context.RequireUserId (c : Context) : Context :=
  if c.err.isSome then c
  else if c.params.userId = "" then
    { c with err := some (invalidParamError "user_id") }
  else c

/-- Modelled from the spec: `c.RequireSchemeId()` — a no-op once the error
slot is non-empty; otherwise latches InvalidParameter "scheme_id" (400) when
the field is absent/empty. -/
def Context.RequireSchemeId (c : Context) : Context :=
  if c.err.isSome then c
  else if c.params.schemeId = "" then
    { c with err := some (invalidParamError "scheme_id") }
  else c

/-- Modelled from the spec: `c.RequireCategory()` — a no-op once the error
slot is non-empty; otherwise latches InvalidParameter "category" (400) when
the field is absent/empty. -/
def Context.RequireCategory (c : Context) : Context :=
  if c.err.isSome then c
  else if c.params.category = "" then
    { c with err := some (invalidParamError "category") }
  else c

/-- Modelled from the spec: `c.RequirePreferenceName()` — a no-op once the
error slot is non-empty; otherwise latches InvalidParameter "preference_name"
(400) when the field is absent/empty. -/
def Context.RequirePreferenceName (c : Context) : Context :=
  if c.err.isSome then c
  else if c.params.preferenceName = "" then
    { c with err := some (invalidParamError "preference_name") }
  else c

/-- `audit.Fail` / `audit.Success`. -/
inductive AuditStatus where
  | fail
  | success
deriving DecidableEq, Repr

/-- Modelled from the spec: an audit record — operation name, status
(default Fail), and an ordered append-only metadata list (`AddMeta` appends;
re-adding a key preserves both entries in order). -/
structure AuditRecord where
  event : String
  status : AuditStatus
  meta : List (String × Scheme)
deriving DecidableEq, Repr

/-- The external collaborators of the core: the session/permission oracle,
the license oracle, and the business-logic facade.  Facade functions return
`Except AppError result`; payload values the handlers never inspect are
`Unit`. -/
structure Env where
  hasPermissionTo : String → Bool
  hasPermissionToUser : String → Bool
  hasPermissionToChannel : String → String → Bool
  licensePresent : Bool
  customPermissionsSchemes : Bool
  createScheme : Scheme → Except AppError Scheme
  getScheme : String → Except AppError Scheme
  getSchemesPage : String → Nat → Nat → Except AppError Unit
  patchScheme : Scheme → SchemePatch → Except AppError Scheme
  deleteScheme : String → Except AppError Scheme
  getTeamsForSchemePage : Scheme → Nat → Nat → Except AppError Unit
  getChannelsForSchemePage : Scheme → Nat → Nat → Except AppError Unit
  getPreferencesForUser : String → Except AppError Unit
  getPreferenceByCategoryForUser : String → String → Except AppError Unit
  getPreferenceByCategoryAndNameForUser :
    String → String → String → Except AppError Unit
  getSinglePost : String → Except AppError Post
  updatePreferences : String → List Preference → Option AppError
  deletePreferences : String → List Preference → Option AppError

/-- What one handler invocation produces: the terminal value of the request
error slot, the business-facade calls made in order, and the audit records
emitted on exit (one per `MakeAuditRecord`, emitted by the deferred
`LogAuditRec` with the record's state at return time). -/
structure HandlerResult where
  err : Option AppError
  calls : List String
  audits : List AuditRecord
deriving DecidableEq, Repr

/-- `createScheme` (scheme.go): parse body, make audit record (Fail) with the
pre-state scheme meta, license gate, permission gate, facade call; on success
flip to Success and append the post-state scheme meta. -/
def createScheme (env : Env) (body : Option Scheme) : HandlerResult :=
  match body with
  | none => { err := some (invalidParamError "scheme"), calls := [], audits := [] }
  | some scheme =>
    let auditRec : AuditRecord :=
      { event := "createScheme", status := .fail, meta := [("scheme", scheme)] }
    if !env.licensePresent || !env.customPermissionsSchemes then
      { err := some { id := "api.scheme.create_scheme.license.error", status := 501 },
        calls := [], audits := [auditRec] }
    else if !env.hasPermissionTo PermissionSysconsoleWriteUserManagementPermissions then
      { err := some (permissionError PermissionSysconsoleWriteUserManagementPermissions),
        calls := [], audits := [auditRec] }
    else
      match env.createScheme scheme with
      | .error e => { err := some e, calls := ["CreateScheme"], audits := [auditRec] }
      | .ok scheme2 =>
        { err := none, calls := ["CreateScheme"],
          audits := [{ event := "createScheme", status := .success,
                       meta := [("scheme", scheme), ("scheme", scheme2)] }] }

/-- `getScheme` (scheme.go): require scheme id, permission gate, facade call. -/
def getScheme (env : Env) (c : Context) : HandlerResult :=
  let c := c.RequireSchemeId
  match c.err with
  | some e => { err := some e, calls := [], audits := [] }
  | none =>
    if !env.hasPermissionTo PermissionSysconsoleReadUserManagementPermissions then
      { err := some (permissionError PermissionSysconsoleReadUserManagementPermissions),
        calls := [], audits := [] }
    else
      match env.getScheme c.params.schemeId with
      | .error e => { err := some e, calls := ["GetScheme"], audits := [] }
      | .ok _ => { err := none, calls := ["GetScheme"], audits := [] }

/-- `getSchemes` (scheme.go): permission gate, scope enum validation, facade
call. -/
def getSchemes (env : Env) (c : Context) : HandlerResult :=
  if !env.hasPermissionTo PermissionSysconsoleReadUserManagementPermissions then
    { err := some (permissionError PermissionSysconsoleReadUserManagementPermissions),
      calls := [], audits := [] }
  else
    let scope := c.params.scope
    if scope != "" && scope != SchemeScopeTeam && scope != SchemeScopeChannel then
      { err := some (invalidParamError "scope"), calls := [], audits := [] }
    else
      match env.getSchemesPage scope c.params.page c.params.perPage with
      | .error e => { err := some e, calls := ["GetSchemesPage"], audits := [] }
      | .ok _ => { err := none, calls := ["GetSchemesPage"], audits := [] }

/-- `getTeamsForScheme` (scheme.go): require scheme id, permission gate, load
the scheme, scope-mismatch check, secondary facade call. -/
def getTeamsForScheme (env : Env) (c : Context) : HandlerResult :=
  let c := c.RequireSchemeId
  match c.err with
  | some e => { err := some e, calls := [], audits := [] }
  | none =>
    if !env.hasPermissionTo PermissionSysconsoleReadUserManagementTeams then
      { err := some (permissionError PermissionSysconsoleReadUserManagementTeams),
        calls := [], audits := [] }
    else
      match env.getScheme c.params.schemeId with
      | .error e => { err := some e, calls := ["GetScheme"], audits := [] }
      | .ok scheme =>
        if scheme.scope != SchemeScopeTeam then
          { err := some { id := "api.scheme.get_teams_for_scheme.scope.error",
                          status := 400 },
            calls := ["GetScheme"], audits := [] }
        else
          match env.getTeamsForSchemePage scheme c.params.page c.params.perPage with
          | .error e =>
            { err := some e, calls := ["GetScheme", "GetTeamsForSchemePage"],
              audits := [] }
          | .ok _ =>
            { err := none, calls := ["GetScheme", "GetTeamsForSchemePage"],
              audits := [] }

/-- `getChannelsForScheme` (scheme.go): symmetric to `getTeamsForScheme` with
the channel scope. -/
def getChannelsForScheme (env : Env) (c : Context) : HandlerResult :=
  let c := c.RequireSchemeId
  match c.err with
  | some e => { err := some e, calls := [], audits := [] }
  | none =>
    if !env.hasPermissionTo PermissionSysconsoleReadUserManagementChannels then
      { err := some (permissionError PermissionSysconsoleReadUserManagementChannels),
        calls := [], audits := [] }
    else
      match env.getScheme c.params.schemeId with
      | .error e => { err := some e, calls := ["GetScheme"], audits := [] }
      | .ok scheme =>
        if scheme.scope != SchemeScopeChannel then
          { err := some { id := "api.scheme.get_channels_for_scheme.scope.error",
                          status := 400 },
            calls := ["GetScheme"], audits := [] }
        else
          match env.getChannelsForSchemePage scheme c.params.page c.params.perPage with
          | .error e =>
            { err := some e, calls := ["GetScheme", "GetChannelsForSchemePage"],
              audits := [] }
          | .ok _ =>
            { err := none, calls := ["GetScheme", "GetChannelsForSchemePage"],
              audits := [] }

/-- `patchScheme` (scheme.go): require scheme id, parse patch body, make audit
record (Fail), license gate, load the scheme (adding it as meta), permission
gate, facade patch call; on success add the patched scheme under key "patch"
and flip to Success. -/
def patchScheme (env : Env) (c : Context) (patch : Option SchemePatch) :
    HandlerResult :=
  let c := c.RequireSchemeId
  match c.err with
  | some e => { err := some e, calls := [], audits := [] }
  | none =>
    match patch with
    | none => { err := some (invalidParamError "scheme"), calls := [], audits := [] }
    | some patch =>
      let auditRec : AuditRecord :=
        { event := "patchScheme", status := .fail, meta := [] }
      if !env.licensePresent || !env.customPermissionsSchemes then
        { err := some { id := "api.scheme.patch_scheme.license.error", status := 501 },
          calls := [], audits := [auditRec] }
      else
        match env.getScheme c.params.schemeId with
        | .error e => { err := some e, calls := ["GetScheme"], audits := [auditRec] }
        | .ok scheme =>
          let auditRec := { auditRec with meta := [("scheme", scheme)] }
          if !env.hasPermissionTo PermissionSysconsoleWriteUserManagementPermissions then
            { err := some (permissionError PermissionSysconsoleWriteUserManagementPermissions),
              calls := ["GetScheme"], audits := [auditRec] }
          else
            match env.patchScheme scheme patch with
            | .error e =>
              { err := some e, calls := ["GetScheme", "PatchScheme"],
                audits := [auditRec] }
            | .ok scheme2 =>
              { err := none, calls := ["GetScheme", "PatchScheme"],
                audits := [{ event := "patchScheme", status := .success,
                             meta := [("scheme", scheme), ("patch", scheme2)] }] }

/-- `deleteScheme` (scheme.go): require scheme id, make audit record (Fail),
license gate, permission gate, facade delete; on success flip to Success and
add the deleted scheme as meta. -/
def deleteScheme (env : Env) (c : Context) : HandlerResult :=
  let c := c.RequireSchemeId
  match c.err with
  | some e => { err := some e, calls := [], audits := [] }
  | none =>
    let auditRec : AuditRecord :=
      { event := "deleteScheme", status := .fail, meta := [] }
    if !env.licensePresent || !env.customPermissionsSchemes then
      { err := some { id := "api.scheme.delete_scheme.license.error", status := 501 },
        calls := [], audits := [auditRec] }
    else if !env.hasPermissionTo PermissionSysconsoleWriteUserManagementPermissions then
      { err := some (permissionError PermissionSysconsoleWriteUserManagementPermissions),
        calls := [], audits := [auditRec] }
    else
      match env.deleteScheme c.params.schemeId with
      | .error e => { err := some e, calls := ["DeleteScheme"], audits := [auditRec] }
      | .ok scheme =>
        { err := none, calls := ["DeleteScheme"],
          audits := [{ event := "deleteScheme", status := .success,
                       meta := [("scheme", scheme)] }] }

/-- `getPreferences` (preference.go): require user id, user-scoped permission
gate, facade call. -/
def getPreferences (env : Env) (c : Context) : HandlerResult :=
  let c := c.RequireUserId
  match c.err with
  | some e => { err := some e, calls := [], audits := [] }
  | none =>
    if !env.hasPermissionToUser c.params.userId then
      { err := some (permissionError PermissionEditOtherUsers),
        calls := [], audits := [] }
    else
      match env.getPreferencesForUser c.params.userId with
      | .error e => { err := some e, calls := ["GetPreferencesForUser"], audits := [] }
      | .ok _ => { err := none, calls := ["GetPreferencesForUser"], audits := [] }

/-- `getPreferencesByCategory` (preference.go): require user id then category,
user-scoped permission gate, facade call. -/
def getPreferencesByCategory (env : Env) (c : Context) : HandlerResult :=
  let c := c.RequireUserId.RequireCategory
  match c.err with
  | some e => { err := some e, calls := [], audits := [] }
  | none =>
    if !env.hasPermissionToUser c.params.userId then
      { err := some (permissionError PermissionEditOtherUsers),
        calls := [], audits := [] }
    else
      match env.getPreferenceByCategoryForUser c.params.userId c.params.category with
      | .error e =>
        { err := some e, calls := ["GetPreferenceByCategoryForUser"], audits := [] }
      | .ok _ =>
        { err := none, calls := ["GetPreferenceByCategoryForUser"], audits := [] }

/-- `getPreferenceByCategoryAndName` (preference.go): require user id,
category and preference name, user-scoped permission gate, facade call. -/
def getPreferenceByCategoryAndName (env : Env) (c : Context) : HandlerResult :=
  let c := c.RequireUserId.RequireCategory.RequirePreferenceName
  match c.err with
  | some e => { err := some e, calls := [], audits := [] }
  | none =>
    if !env.hasPermissionToUser c.params.userId then
      { err := some (permissionError PermissionEditOtherUsers),
        calls := [], audits := [] }
    else
      match env.getPreferenceByCategoryAndNameForUser c.params.userId
        c.params.category c.params.preferenceName with
      | .error e =>
        { err := some e, calls := ["GetPreferenceByCategoryAndNameForUser"],
          audits := [] }
      | .ok _ =>
        { err := none, calls := ["GetPreferenceByCategoryAndNameForUser"],
          audits := [] }

/-- The `for _, pref := range preferences` loop of `updatePreferences`: for a
`flagged_post` entry, load the referenced post (`GetSinglePost`) — a load
failure becomes InvalidParameter "preference.name", an unreadable channel
becomes PermissionDenied read_channel — and stop at the first failure.
Returns the facade calls made and the error, if any.  When it returns no
error, every entry was appended to `sanitizedPreferences`, which then equals
the input list. -/
def checkPrefs (env : Env) : List Preference → List String × Option AppError
  | [] => ([], none)
  | pref :: rest =>
    if pref.category = PreferenceCategoryFlaggedPost then
      match env.getSinglePost pref.name with
      | .error _ => (["GetSinglePost"], some (invalidParamError "preference.name"))
      | .ok post =>
        if !env.hasPermissionToChannel post.channelId PermissionReadChannel then
          (["GetSinglePost"], some (permissionError PermissionReadChannel))
        else
          let r := checkPrefs env rest
          ("GetSinglePost" :: r.1, r.2)
    else
      checkPrefs env rest

/-- `updatePreferences` (preference.go): require user id, make audit record
(Fail), user-scoped permission gate, parse body, per-entry flagged-post
checks, then the facade update with the sanitized (= full) list; Success only
on the happy path. -/
def updatePreferences (env : Env) (c : Context)
    (body : Option (List Preference)) : HandlerResult :=
  let c := c.RequireUserId
  match c.err with
  | some e => { err := some e, calls := [], audits := [] }
  | none =>
    let auditRec : AuditRecord :=
      { event := "updatePreferences", status := .fail, meta := [] }
    if !env.hasPermissionToUser c.params.userId then
      { err := some (permissionError PermissionEditOtherUsers),
        calls := [], audits := [auditRec] }
    else
      match body with
      | none =>
        { err := some (invalidParamError "preferences"), calls := [], audits := [auditRec] }
      | some preferences =>
        match checkPrefs env preferences with
        | (cs, some e) => { err := some e, calls := cs, audits := [auditRec] }
        | (cs, none) =>
          match env.updatePreferences c.params.userId preferences with
          | some e =>
            { err := some e, calls := cs ++ ["UpdatePreferences"],
              audits := [auditRec] }
          | none =>
            { err := none, calls := cs ++ ["UpdatePreferences"],
              audits := [{ event := "updatePreferences", status := .success,
                           meta := [] }] }

/-- `deletePreferences` (preference.go): require user id, make audit record
(Fail), user-scoped permission gate, parse body, facade delete; Success only
on the happy path. -/
def deletePreferences (env : Env) (c : Context)
    (body : Option (List Preference)) : HandlerResult :=
  let c := c.RequireUserId
  match c.err with
  | some e => { err := some e, calls := [], audits := [] }
  | none =>
    let auditRec : AuditRecord :=
      { event := "deletePreferences", status := .fail, meta := [] }
    if !env.hasPermissionToUser c.params.userId then
      { err := some (permissionError PermissionEditOtherUsers),
        calls := [], audits := [auditRec] }
    else
      match body with
      | none =>
        { err := some (invalidParamError "preferences"), calls := [], audits := [auditRec] }
      | some preferences =>
        match env.deletePreferences c.params.userId preferences with
        | some e =>
          { err := some e, calls := ["DeletePreferences"], audits := [auditRec] }
        | none =>
          { err := none, calls := ["DeletePreferences"],
            audits := [{ event := "deletePreferences", status := .success,
                         meta := [] }] }

end Api4

/-! ## Claims -/

open Mattermost

/-- C1: `CheckUserPassword`'s result is independent of the stored password
hash: two user records with the same `Username` get the same result for every
candidate password (`user.Password` is never read); validity is decided solely
by `ValidateIAM`, which accepts iff the IAM endpoint answers HTTP 200 to the
POST of the username and plaintext password. -/
theorem C1_checkUserPassword_ignores_stored_hash
    (iam : Users.IamOracle) (u1 u2 : Users.User) (pw : String)
    (h : u1.username = u2.username) :
    Users.CheckUserPassword iam u1 pw = Users.CheckUserPassword iam u2 pw ∧
    (Users.CheckUserPassword iam u1 pw = none ↔
      Users.ValidateIAM iam u1.username pw = true) ∧
    (Users.ValidateIAM iam u1.username pw = true ↔
      iam.post u1.username pw = some 200) := by
  refine ⟨by simp [Users.CheckUserPassword, h], ?_, ?_⟩
  · cases hv : Users.ValidateIAM iam u1.username pw <;>
      simp [Users.CheckUserPassword, hv]
  · unfold Users.ValidateIAM
    cases hp : iam.post u1.username pw with
    | none => simp
    | some status => simp

/-- Witness for C1 at concrete inputs: two users sharing a username with
different stored hashes. -/
theorem C1_witness :
    Users.CheckUserPassword ⟨fun _ _ => some 200⟩ ⟨"alice", "hashA"⟩ "pw" =
      Users.CheckUserPassword ⟨fun _ _ => some 200⟩ ⟨"alice", "hashB"⟩ "pw" ∧
    (Users.CheckUserPassword ⟨fun _ _ => some 200⟩ ⟨"alice", "hashA"⟩ "pw" = none ↔
      Users.ValidateIAM ⟨fun _ _ => some 200⟩ "alice" "pw" = true) ∧
    (Users.ValidateIAM ⟨fun _ _ => some 200⟩ "alice" "pw" = true ↔
      (some 200 : Option Nat) = some 200) :=
  C1_checkUserPassword_ignores_stored_hash ⟨fun _ _ => some 200⟩
    ⟨"alice", "hashA"⟩ ⟨"alice", "hashB"⟩ "pw" rfl

/-- C10: `IsPasswordValidWithSettings` returns nil iff the length is within
`[MinimumLength, PasswordMaximumLength]` and each enabled character-class flag
is matched by at least one character; when it errors, the error id is
`passwordErrorId settings` — the suffix of every enabled flag, determined by
the settings alone. -/
theorem C10_isPasswordValidWithSettings_spec
    (pw : String) (s : Users.PasswordSettings) :
    (Users.IsPasswordValidWithSettings pw s = none ↔
      (s.minimumLength ≤ pw.length ∧ pw.length ≤ Users.PasswordMaximumLength ∧
       (s.lowercase = true → Users.containsAny pw Users.LowercaseLetters = true) ∧
       (s.uppercase = true → Users.containsAny pw Users.UppercaseLetters = true) ∧
       (s.number = true → Users.containsAny pw Users.NUMBERS = true) ∧
       (s.symbol = true → Users.containsAny pw Users.SYMBOLS = true))) ∧
    (∀ e, Users.IsPasswordValidWithSettings pw s = some e →
      e = Users.passwordErrorId s) := by
  obtain ⟨m, lc, uc, nu, sy⟩ := s
  cases lc <;> cases uc <;> cases nu <;> cases sy <;>
    constructor <;>
      simp [Users.IsPasswordValidWithSettings, Users.passwordErrorId,
        Users.NewErrInvalidPassword, Nat.not_lt, and_assoc]

/-- Witness for C10: a password failing every check under all-enabled
settings; the reported id carries every enabled flag's suffix. -/
theorem C10_witness :
    ("model.user.is_valid.pwd_lowercase_uppercase_number_symbol.app_error" :
        String) =
      Users.passwordErrorId ⟨10, true, true, true, true⟩ :=
  (C10_isPasswordValidWithSettings_spec "short" ⟨10, true, true, true, true⟩).2
    "model.user.is_valid.pwd_lowercase_uppercase_number_symbol.app_error"
    (by decide)

/-! ### Concrete environments and inputs used by witnesses and
counterexamples. -/

/-- A fully permissive environment: license present, feature flag on, every
permission granted, every facade call succeeding; `getScheme` returns a
team-scoped scheme. -/
def envAllow : Api4.Env :=
  { hasPermissionTo := fun _ => true
    hasPermissionToUser := fun _ => true
    hasPermissionToChannel := fun _ _ => true
    licensePresent := true
    customPermissionsSchemes := true
    createScheme := fun s => .ok s
    getScheme := fun i => .ok { id := i, scope := "team" }
    getSchemesPage := fun _ _ _ => .ok ()
    patchScheme := fun s _ => .ok s
    deleteScheme := fun i => .ok { id := i, scope := "team" }
    getTeamsForSchemePage := fun _ _ _ => .ok ()
    getChannelsForSchemePage := fun _ _ _ => .ok ()
    getPreferencesForUser := fun _ => .ok ()
    getPreferenceByCategoryForUser := fun _ _ => .ok ()
    getPreferenceByCategoryAndNameForUser := fun _ _ _ => .ok ()
    getSinglePost := fun i => .ok { id := i, channelId := "chan1" }
    updatePreferences := fun _ _ => none
    deletePreferences := fun _ _ => none }

/-- Like `envAllow` but with every session permission denied. -/
def envDeny : Api4.Env :=
  { envAllow with
    hasPermissionTo := fun _ => false
    hasPermissionToUser := fun _ => false
    hasPermissionToChannel := fun _ _ => false }

/-- Like `envAllow` but without a license. -/
def envNoLicense : Api4.Env :=
  { envAllow with licensePresent := false }

/-- Like `envAllow` but `getScheme` returns a channel-scoped scheme. -/
def envChannelScheme : Api4.Env :=
  { envAllow with getScheme := fun i => .ok { id := i, scope := "channel" } }

/-- Like `envAllow` but the session cannot read any channel (flagged-post
check fails) while it can still act on the user. -/
def envChanDeny : Api4.Env :=
  { envAllow with hasPermissionToChannel := fun _ _ => false }

/-- A request parameter set with every required field present. -/
def pFull : Api4.Params :=
  { userId := "user1", schemeId := "scheme1", category := "cat1",
    preferenceName := "name1", scope := "", page := 0, perPage := 60 }

/-- A request parameter set with every required field absent. -/
def pEmpty : Api4.Params :=
  { userId := "", schemeId := "", category := "",
    preferenceName := "", scope := "", page := 0, perPage := 60 }

/-- A concrete scheme body. -/
def schemeW : Mattermost.Scheme := { id := "schemeW", scope := "team" }

/-- A concrete patch body. -/
def patchW : SchemePatch :=
  { name := some "n", displayName := none, description := none }

/-- A concrete flagged-post preference entry. -/
def prefFlagged : Mattermost.Preference :=
  { userId := "user1", category := "flagged_post", name := "post1",
    value := "true" }

/-- A concrete ordinary (non-flagged) preference entry. -/
def prefPlain : Mattermost.Preference :=
  { userId := "user1", category := "display_settings", name := "use_military_time",
    value := "false" }

/-- C3: for the license-gated operations `createScheme`, `patchScheme` and
`deleteScheme`, an absent license or a false CustomPermissionsSchemes flag
terminates the request with the operation's NotImplemented error (HTTP 501)
and no facade call, for every permission oracle — the license gate is
evaluated strictly before the permission gate. -/
theorem C3_license_gate_precedes_permission
    (env : Api4.Env) (p : Api4.Params) (scheme : Scheme) (patch : SchemePatch)
    (hs : p.schemeId ≠ "")
    (hlic : env.licensePresent = false ∨ env.customPermissionsSchemes = false) :
    Api4.createScheme env (some scheme) =
      { err := some { id := "api.scheme.create_scheme.license.error", status := 501 },
        calls := [],
        audits := [{ event := "createScheme", status := .fail,
                     meta := [("scheme", scheme)] }] } ∧
    Api4.patchScheme env { params := p, err := none } (some patch) =
      { err := some { id := "api.scheme.patch_scheme.license.error", status := 501 },
        calls := [],
        audits := [{ event := "patchScheme", status := .fail, meta := [] }] } ∧
    Api4.deleteScheme env { params := p, err := none } =
      { err := some { id := "api.scheme.delete_scheme.license.error", status := 501 },
        calls := [],
        audits := [{ event := "deleteScheme", status := .fail, meta := [] }] } := by
  rcases hlic with h | h <;>
    simp [Api4.createScheme, Api4.patchScheme, Api4.deleteScheme,
      Api4.Context.RequireSchemeId, hs, h]

/-- Witness for C3: an unlicensed deployment whose session holds every
permission still gets 501 from all three gated operations. -/
theorem C3_witness :
    Api4.createScheme envNoLicense (some schemeW) =
      { err := some { id := "api.scheme.create_scheme.license.error", status := 501 },
        calls := [],
        audits := [{ event := "createScheme", status := .fail,
                     meta := [("scheme", schemeW)] }] } ∧
    Api4.patchScheme envNoLicense { params := pFull, err := none } (some patchW) =
      { err := some { id := "api.scheme.patch_scheme.license.error", status := 501 },
        calls := [],
        audits := [{ event := "patchScheme", status := .fail, meta := [] }] } ∧
    Api4.deleteScheme envNoLicense { params := pFull, err := none } =
      { err := some { id := "api.scheme.delete_scheme.license.error", status := 501 },
        calls := [],
        audits := [{ event := "deleteScheme", status := .fail, meta := [] }] } :=
  C3_license_gate_precedes_permission envNoLicense pFull schemeW patchW
    (by decide) (Or.inl rfl)

/-- C9: a request to a handler with a required parameter that is absent/empty
terminates with the InvalidParameter error (HTTP 400) identifying exactly that
field, and no business-facade call (and no audit record) occurs.  `ps` lacks
SchemeId, `pu` lacks UserId, `pc` lacks only Category, `pn` lacks only
PreferenceName. -/
theorem C9_missing_required_param
    (env : Api4.Env) (pu ps pc pn : Api4.Params)
    (body : Option (List Preference)) (patch : Option SchemePatch)
    (hu : pu.userId = "") (hs : ps.schemeId = "")
    (hc1 : pc.userId ≠ "") (hc2 : pc.category = "")
    (hn1 : pn.userId ≠ "") (hn2 : pn.category ≠ "") (hn3 : pn.preferenceName = "") :
    Api4.getScheme env { params := ps, err := none } =
      { err := some (invalidParamError "scheme_id"), calls := [], audits := [] } ∧
    Api4.getTeamsForScheme env { params := ps, err := none } =
      { err := some (invalidParamError "scheme_id"), calls := [], audits := [] } ∧
    Api4.getChannelsForScheme env { params := ps, err := none } =
      { err := some (invalidParamError "scheme_id"), calls := [], audits := [] } ∧
    Api4.patchScheme env { params := ps, err := none } patch =
      { err := some (invalidParamError "scheme_id"), calls := [], audits := [] } ∧
    Api4.deleteScheme env { params := ps, err := none } =
      { err := some (invalidParamError "scheme_id"), calls := [], audits := [] } ∧
    Api4.getPreferences env { params := pu, err := none } =
      { err := some (invalidParamError "user_id"), calls := [], audits := [] } ∧
    Api4.getPreferencesByCategory env { params := pu, err := none } =
      { err := some (invalidParamError "user_id"), calls := [], audits := [] } ∧
    Api4.getPreferenceByCategoryAndName env { params := pu, err := none } =
      { err := some (invalidParamError "user_id"), calls := [], audits := [] } ∧
    Api4.updatePreferences env { params := pu, err := none } body =
      { err := some (invalidParamError "user_id"), calls := [], audits := [] } ∧
    Api4.deletePreferences env { params := pu, err := none } body =
      { err := some (invalidParamError "user_id"), calls := [], audits := [] } ∧
    Api4.getPreferencesByCategory env { params := pc, err := none } =
      { err := some (invalidParamError "category"), calls := [], audits := [] } ∧
    Api4.getPreferenceByCategoryAndName env { params := pc, err := none } =
      { err := some (invalidParamError "category"), calls := [], audits := [] } ∧
    Api4.getPreferenceByCategoryAndName env { params := pn, err := none } =
      { err := some (invalidParamError "preference_name"), calls := [], audits := [] } := by
  refine ⟨?_, ?_, ?_, ?_, ?_, ?_, ?_, ?_, ?_, ?_, ?_, ?_, ?_⟩ <;>
    simp [Api4.getScheme, Api4.getTeamsForScheme, Api4.getChannelsForScheme,
      Api4.patchScheme, Api4.deleteScheme, Api4.getPreferences,
      Api4.getPreferencesByCategory, Api4.getPreferenceByCategoryAndName,
      Api4.updatePreferences, Api4.deletePreferences,
      Api4.Context.RequireSchemeId, Api4.Context.RequireUserId,
      Api4.Context.RequireCategory, Api4.Context.RequirePreferenceName,
      hu, hs, hc1, hc2, hn1, hn2, hn3]

/-- Witness for C9 at concrete parameter sets, each missing exactly the
field whose identifier is reported. -/
theorem C9_witness :
    Api4.getScheme envAllow { params := pEmpty, err := none } =
      { err := some (invalidParamError "scheme_id"), calls := [], audits := [] } ∧
    Api4.getPreferences envAllow { params := pEmpty, err := none } =
      { err := some (invalidParamError "user_id"), calls := [], audits := [] } ∧
    Api4.getPreferencesByCategory envAllow
        { params := { pFull with category := "" }, err := none } =
      { err := some (invalidParamError "category"), calls := [], audits := [] } ∧
    Api4.getPreferenceByCategoryAndName envAllow
        { params := { pFull with preferenceName := "" }, err := none } =
      { err := some (invalidParamError "preference_name"), calls := [], audits := [] } := by
  have h := C9_missing_required_param envAllow pEmpty pEmpty
    { pFull with category := "" } { pFull with preferenceName := "" }
    none none rfl rfl (by decide) rfl (by decide) (by decide) rfl
  exact ⟨h.1, h.2.2.2.2.2.1, h.2.2.2.2.2.2.2.2.2.2.1, h.2.2.2.2.2.2.2.2.2.2.2.2⟩

/-- C8: the request error slot is a write-once latch: every `RequireX` chain
step preserves an already-set error unchanged, every handler body built on the
chain is then a no-op (no facade call, no audit record, same error), and when
several required fields are invalid only the first-declared check's error is
reported — a request missing both UserId and Category on the category-scoped
preference endpoint reports only the UserId violation. -/
theorem C8_error_slot_write_once_latch
    (env : Api4.Env) (c : Api4.Context) (e : AppError) (p : Api4.Params)
    (body : Option (List Preference)) (patch : Option SchemePatch)
    (hc : c.err = some e) (hu : p.userId = "") (hcat : p.category = "") :
    (c.RequireUserId.err = some e ∧ c.RequireSchemeId.err = some e ∧
     c.RequireCategory.err = some e ∧ c.RequirePreferenceName.err = some e) ∧
    (Api4.getScheme env c = { err := some e, calls := [], audits := [] } ∧
     Api4.getTeamsForScheme env c = { err := some e, calls := [], audits := [] } ∧
     Api4.getChannelsForScheme env c = { err := some e, calls := [], audits := [] } ∧
     Api4.patchScheme env c patch = { err := some e, calls := [], audits := [] } ∧
     Api4.deleteScheme env c = { err := some e, calls := [], audits := [] } ∧
     Api4.getPreferences env c = { err := some e, calls := [], audits := [] } ∧
     Api4.getPreferencesByCategory env c = { err := some e, calls := [], audits := [] } ∧
     Api4.getPreferenceByCategoryAndName env c = { err := some e, calls := [], audits := [] } ∧
     Api4.updatePreferences env c body = { err := some e, calls := [], audits := [] } ∧
     Api4.deletePreferences env c body = { err := some e, calls := [], audits := [] }) ∧
    Api4.getPreferencesByCategory env { params := p, err := none } =
      { err := some (invalidParamError "user_id"), calls := [], audits := [] } := by
  refine ⟨⟨?_, ?_, ?_, ?_⟩, ⟨?_, ?_, ?_, ?_, ?_, ?_, ?_, ?_, ?_, ?_⟩, ?_⟩ <;>
    simp [Api4.getScheme, Api4.getTeamsForScheme, Api4.getChannelsForScheme,
      Api4.patchScheme, Api4.deleteScheme, Api4.getPreferences,
      Api4.getPreferencesByCategory, Api4.getPreferenceByCategoryAndName,
      Api4.updatePreferences, Api4.deletePreferences,
      Api4.Context.RequireSchemeId, Api4.Context.RequireUserId,
      Api4.Context.RequireCategory, Api4.Context.RequirePreferenceName,
      hc, hu, hcat]

/-- Witness for C8: a latched context keeps its error through the chain and
the handler, and a request missing both UserId and Category reports only the
UserId violation. -/
theorem C8_witness :
    (Api4.Context.RequireUserId
        { params := pEmpty, err := some (invalidParamError "scheme_id") }).err =
      some (invalidParamError "scheme_id") ∧
    Api4.getPreferencesByCategory envAllow
        { params := pEmpty, err := some (invalidParamError "scheme_id") } =
      { err := some (invalidParamError "scheme_id"), calls := [], audits := [] } ∧
    Api4.getPreferencesByCategory envAllow { params := pEmpty, err := none } =
      { err := some (invalidParamError "user_id"), calls := [], audits := [] } := by
  have h := C8_error_slot_write_once_latch envAllow
    { params := pEmpty, err := some (invalidParamError "scheme_id") }
    (invalidParamError "scheme_id") pEmpty none none rfl rfl rfl
  exact ⟨h.1.1, h.2.1.2.2.2.2.2.2.1, h.2.2⟩

/-- C7: once `getTeamsForScheme` loads a scheme whose scope is not "team" it
terminates with the scope-mismatch error (HTTP 400) before calling
`GetTeamsForSchemePage`; `getChannelsForScheme` symmetrically for scope
"channel" and `GetChannelsForSchemePage`; in the matching-scope cases the
secondary call is made and the request succeeds. -/
theorem C7_scope_mismatch
    (env : Api4.Env) (p : Api4.Params) (scheme : Scheme)
    (hs : p.schemeId ≠ "")
    (hscheme : env.getScheme p.schemeId = .ok scheme) :
    (env.hasPermissionTo PermissionSysconsoleReadUserManagementTeams = true →
      scheme.scope ≠ SchemeScopeTeam →
      Api4.getTeamsForScheme env { params := p, err := none } =
        { err := some { id := "api.scheme.get_teams_for_scheme.scope.error",
                        status := 400 },
          calls := ["GetScheme"], audits := [] }) ∧
    (env.hasPermissionTo PermissionSysconsoleReadUserManagementTeams = true →
      scheme.scope = SchemeScopeTeam →
      env.getTeamsForSchemePage scheme p.page p.perPage = .ok () →
      Api4.getTeamsForScheme env { params := p, err := none } =
        { err := none, calls := ["GetScheme", "GetTeamsForSchemePage"],
          audits := [] }) ∧
    (env.hasPermissionTo PermissionSysconsoleReadUserManagementChannels = true →
      scheme.scope ≠ SchemeScopeChannel →
      Api4.getChannelsForScheme env { params := p, err := none } =
        { err := some { id := "api.scheme.get_channels_for_scheme.scope.error",
                        status := 400 },
          calls := ["GetScheme"], audits := [] }) ∧
    (env.hasPermissionTo PermissionSysconsoleReadUserManagementChannels = true →
      scheme.scope = SchemeScopeChannel →
      env.getChannelsForSchemePage scheme p.page p.perPage = .ok () →
      Api4.getChannelsForScheme env { params := p, err := none } =
        { err := none, calls := ["GetScheme", "GetChannelsForSchemePage"],
          audits := [] }) := by
  refine ⟨fun hp hsc => ?_, fun hp hsc hpage => ?_,
          fun hp hsc => ?_, fun hp hsc hpage => ?_⟩
  all_goals first
  | simp [Api4.getTeamsForScheme, Api4.getChannelsForScheme,
      Api4.Context.RequireSchemeId, hs, hp, hscheme, hsc, hpage]
  | simp [Api4.getTeamsForScheme, Api4.getChannelsForScheme,
      Api4.Context.RequireSchemeId, hs, hp, hscheme, hsc]

/-- Witness for C7: against a team-scoped scheme the teams listing succeeds
and the channels listing is a 400 scope mismatch; against a channel-scoped
scheme the two swap. -/
theorem C7_witness :
    Api4.getTeamsForScheme envAllow { params := pFull, err := none } =
      { err := none, calls := ["GetScheme", "GetTeamsForSchemePage"],
        audits := [] } ∧
    Api4.getChannelsForScheme envAllow { params := pFull, err := none } =
      { err := some { id := "api.scheme.get_channels_for_scheme.scope.error",
                      status := 400 },
        calls := ["GetScheme"], audits := [] } ∧
    Api4.getChannelsForScheme envChannelScheme { params := pFull, err := none } =
      { err := none, calls := ["GetScheme", "GetChannelsForSchemePage"],
        audits := [] } ∧
    Api4.getTeamsForScheme envChannelScheme { params := pFull, err := none } =
      { err := some { id := "api.scheme.get_teams_for_scheme.scope.error",
                      status := 400 },
        calls := ["GetScheme"], audits := [] } := by
  have h1 := C7_scope_mismatch envAllow pFull { id := "scheme1", scope := "team" }
    (by decide) rfl
  have h2 := C7_scope_mismatch envChannelScheme pFull
    { id := "scheme1", scope := "channel" } (by decide) rfl
  exact ⟨h1.2.1 rfl rfl rfl, h1.2.2.1 rfl (by decide),
         h2.2.2.2 rfl rfl rfl, h2.1 rfl (by decide)⟩

/-- C5: every handler that creates an audit record creates it with status
Fail and finalizes it exactly once on every exit path taken after the record
exists (license failure, permission failure, body-validation failure,
upstream error, success); on any failing exit `createScheme`'s record is the
Fail record carrying the pre-state scheme meta, and on a successful create
the single record has Success status with the "scheme" meta entry attached
before the create call and the one attached after it, both preserved in
order. -/
theorem C5_audit_created_fail_finalized_once
    (env : Api4.Env) (p : Api4.Params) (scheme : Scheme) (patch : SchemePatch)
    (bodyU bodyD : Option (List Preference))
    (hs : p.schemeId ≠ "") (hu : p.userId ≠ "") :
    (Api4.createScheme env (some scheme)).audits.length = 1 ∧
    (Api4.patchScheme env { params := p, err := none } (some patch)).audits.length = 1 ∧
    (Api4.deleteScheme env { params := p, err := none }).audits.length = 1 ∧
    (Api4.updatePreferences env { params := p, err := none } bodyU).audits.length = 1 ∧
    (Api4.deletePreferences env { params := p, err := none } bodyD).audits.length = 1 ∧
    ((Api4.createScheme env (some scheme)).err.isSome →
      (Api4.createScheme env (some scheme)).audits =
        [{ event := "createScheme", status := .fail,
           meta := [("scheme", scheme)] }]) ∧
    (∀ s2, env.createScheme scheme = .ok s2 →
      env.licensePresent = true → env.customPermissionsSchemes = true →
      env.hasPermissionTo PermissionSysconsoleWriteUserManagementPermissions = true →
      Api4.createScheme env (some scheme) =
        { err := none, calls := ["CreateScheme"],
          audits := [{ event := "createScheme", status := .success,
                       meta := [("scheme", scheme), ("scheme", s2)] }] }) := by
  refine ⟨?_, ?_, ?_, ?_, ?_, ?_, ?_⟩
  · simp only [Api4.createScheme]
    repeat' split
    all_goals simp
  · simp [Api4.patchScheme, Api4.Context.RequireSchemeId, hs]
    repeat' split
    all_goals simp
  · simp [Api4.deleteScheme, Api4.Context.RequireSchemeId, hs]
    repeat' split
    all_goals simp
  · simp [Api4.updatePreferences, Api4.Context.RequireUserId, hu]
    repeat' split
    all_goals simp
  · simp [Api4.deletePreferences, Api4.Context.RequireUserId, hu]
    repeat' split
    all_goals simp
  · simp only [Api4.createScheme]
    repeat' split
    all_goals simp
  · intro s2 hok hlic hflag hperm
    simp [Api4.createScheme, hok, hlic, hflag, hperm]

/-- Witness for C5: a permission-denied create emits one Fail record with the
pre-state meta; a successful create emits one Success record with the meta
attached before and after the create call, in order. -/
theorem C5_witness :
    (Api4.createScheme envDeny (some schemeW)).audits.length = 1 ∧
    (Api4.createScheme envDeny (some schemeW)).audits =
      [{ event := "createScheme", status := .fail,
         meta := [("scheme", schemeW)] }] ∧
    Api4.createScheme envAllow (some schemeW) =
      { err := none, calls := ["CreateScheme"],
        audits := [{ event := "createScheme", status := .success,
                     meta := [("scheme", schemeW), ("scheme", schemeW)] }] } := by
  have h1 := C5_audit_created_fail_finalized_once envDeny pFull schemeW patchW
    none none (by decide) (by decide)
  have h2 := C5_audit_created_fail_finalized_once envAllow pFull schemeW patchW
    none none (by decide) (by decide)
  exact ⟨h1.1, h1.2.2.2.2.2.1 (by decide),
         h2.2.2.2.2.2.2 schemeW rfl rfl rfl rfl⟩

/-! ### Helper lemmas about the `updatePreferences` flagged-post loop. -/

/-- Every facade call the flagged-post loop makes is a `GetSinglePost`. -/
lemma checkPrefs_calls_getSinglePost (env : Api4.Env) :
    ∀ prefs x, x ∈ (Api4.checkPrefs env prefs).1 → x = "GetSinglePost" := by
  intro prefs
  induction prefs with
  | nil => simp [Api4.checkPrefs]
  | cons pref rest ih =>
    intro x hx
    by_cases hcat : pref.category = PreferenceCategoryFlaggedPost
    · rcases hpost : env.getSinglePost pref.name with e | post
      · simp [Api4.checkPrefs, hcat, hpost] at hx
        exact hx
      · by_cases hch :
          env.hasPermissionToChannel post.channelId PermissionReadChannel
        · simp [Api4.checkPrefs, hcat, hpost, hch] at hx
          rcases hx with rfl | hx
          · rfl
          · exact ih x hx
        · simp [Api4.checkPrefs, hcat, hpost, hch] at hx
          exact hx
    · simp [Api4.checkPrefs, hcat] at hx
      exact ih x hx

/-- If every flagged-post entry's referenced post loads, and some flagged-post
entry's post lies in an unreadable channel, the loop stops with the
read-channel permission error. -/
lemma checkPrefs_snd_unreadable (env : Api4.Env) :
    ∀ prefs : List Preference,
    (∀ pr ∈ prefs, pr.category = PreferenceCategoryFlaggedPost →
      ∃ post, env.getSinglePost pr.name = .ok post) →
    (∃ pr ∈ prefs, pr.category = PreferenceCategoryFlaggedPost ∧
      ∀ post, env.getSinglePost pr.name = .ok post →
        env.hasPermissionToChannel post.channelId PermissionReadChannel = false) →
    (Api4.checkPrefs env prefs).2 = some (permissionError PermissionReadChannel) := by
  intro prefs
  induction prefs with
  | nil => simp
  | cons pref rest ih =>
    intro hres hbad
    by_cases hcat : pref.category = PreferenceCategoryFlaggedPost
    · obtain ⟨post, hpost⟩ := hres pref (List.mem_cons_self pref rest) hcat
      by_cases hch :
          env.hasPermissionToChannel post.channelId PermissionReadChannel
      · simp only [Api4.checkPrefs, hcat, hpost, hch, if_pos]
        simp only [if_true, Bool.not_true, Bool.false_eq_true, if_false]
        apply ih
        · exact fun pr hpr hc => hres pr (List.mem_cons_of_mem pref hpr) hc
        · rcases hbad with ⟨pr, hmem, hc, hbadperm⟩
          rcases List.mem_cons.mp hmem with rfl | hmem2
          · exact absurd (hbadperm post hpost) (by simp [hch])
          · exact ⟨pr, hmem2, hc, hbadperm⟩
      · simp [Api4.checkPrefs, hcat, hpost, hch]
    · simp only [Api4.checkPrefs, hcat, if_false]
      apply ih
      · exact fun pr hpr hc => hres pr (List.mem_cons_of_mem pref hpr) hc
      · rcases hbad with ⟨pr, hmem, hc, hbadperm⟩
        rcases List.mem_cons.mp hmem with rfl | hmem2
        · exact absurd hc hcat
        · exact ⟨pr, hmem2, hc, hbadperm⟩

/-- C6: an `updatePreferences` request whose (parsed) preference list contains
a `flagged_post` entry referencing a post in a channel the session cannot
read terminates with the read-channel permission error (HTTP 403) and never
invokes `UpdatePreferences`, so no preference of the batch is persisted
(holds whenever every flagged-post entry's referenced post itself loads). -/
theorem C6_flagged_post_unreadable_channel_no_partial_update
    (env : Api4.Env) (p : Api4.Params) (prefs : List Preference)
    (hu : p.userId ≠ "")
    (hperm : env.hasPermissionToUser p.userId = true)
    (hres : ∀ pr ∈ prefs, pr.category = PreferenceCategoryFlaggedPost →
      ∃ post, env.getSinglePost pr.name = .ok post)
    (hbad : ∃ pr ∈ prefs, pr.category = PreferenceCategoryFlaggedPost ∧
      ∀ post, env.getSinglePost pr.name = .ok post →
        env.hasPermissionToChannel post.channelId PermissionReadChannel = false) :
    (Api4.updatePreferences env { params := p, err := none } (some prefs)).err =
      some (permissionError PermissionReadChannel) ∧
    (permissionError PermissionReadChannel).status = 403 ∧
    "UpdatePreferences" ∉
      (Api4.updatePreferences env { params := p, err := none } (some prefs)).calls := by
  have hsnd := checkPrefs_snd_unreadable env prefs hres hbad
  rcases hcp : Api4.checkPrefs env prefs with ⟨cs, e⟩
  rw [hcp] at hsnd
  simp only at hsnd
  subst hsnd
  have hres2 : Api4.updatePreferences env { params := p, err := none } (some prefs) =
      { err := some (permissionError PermissionReadChannel), calls := cs,
        audits := [{ event := "updatePreferences", status := .fail, meta := [] }] } := by
    simp [Api4.updatePreferences, Api4.Context.RequireUserId, hu, hperm, hcp]
  refine ⟨by simp [hres2], rfl, ?_⟩
  rw [hres2]
  intro hmem
  have := checkPrefs_calls_getSinglePost env prefs "UpdatePreferences"
    (by rw [hcp]; exact hmem)
  simp at this

/-- Witness for C6: a batch holding a valid plain preference and a
flagged-post preference whose post sits in an unreadable channel is rejected
with 403 and `UpdatePreferences` is never called. -/
theorem C6_witness :
    (Api4.updatePreferences envChanDeny { params := pFull, err := none }
        (some [prefPlain, prefFlagged])).err =
      some (permissionError PermissionReadChannel) ∧
    (permissionError PermissionReadChannel).status = 403 ∧
    "UpdatePreferences" ∉
      (Api4.updatePreferences envChanDeny { params := pFull, err := none }
        (some [prefPlain, prefFlagged])).calls := by
  apply C6_flagged_post_unreadable_channel_no_partial_update
  · decide
  · rfl
  · intro pr hpr hcat
    exact ⟨{ id := pr.name, channelId := "chan1" }, rfl⟩
  · refine ⟨prefFlagged, by simp, rfl, ?_⟩
    intro post hpost
    rfl

/-- C2 counterexample: a `patchScheme` request that fails its permission
check has already made the `GetScheme` business-facade call — the claim's
"no business-facade call occurs before or after the failed check" is false
for `patchScheme` (scheme.go loads the scheme before authorizing). -/
theorem C2_counterexample :
    (Api4.patchScheme envDeny { params := pFull, err := none } (some patchW)).err =
      some (permissionError PermissionSysconsoleWriteUserManagementPermissions) ∧
    (Api4.patchScheme envDeny { params := pFull, err := none } (some patchW)).calls =
      ["GetScheme"] ∧
    (Api4.patchScheme envDeny { params := pFull, err := none } (some patchW)).calls ≠
      [] := by
  decide

/-- C2 (amended): for every request failing an authorization check, exactly
one Fail-status audit record is emitted (for handlers that audit) and no
business-facade call occurs after the failed check; handlers that must load a
resource before authorizing it — `patchScheme`'s `GetScheme` and
`updatePreferences`' per-entry `GetSinglePost` — make exactly those loading
calls before the failed check. -/
theorem C2_amended_auth_failure_one_fail_audit
    (env : Api4.Env) (p : Api4.Params) (scheme s : Scheme) (patch : SchemePatch)
    (prefs : List Preference) (body : Option (List Preference))
    (hs : p.schemeId ≠ "") (hu : p.userId ≠ "")
    (hc : p.category ≠ "") (hn : p.preferenceName ≠ "") :
    (env.licensePresent = true → env.customPermissionsSchemes = true →
     env.hasPermissionTo PermissionSysconsoleWriteUserManagementPermissions = false →
     Api4.createScheme env (some scheme) =
       { err := some (permissionError PermissionSysconsoleWriteUserManagementPermissions),
         calls := [],
         audits := [{ event := "createScheme", status := .fail,
                      meta := [("scheme", scheme)] }] } ∧
     Api4.deleteScheme env { params := p, err := none } =
       { err := some (permissionError PermissionSysconsoleWriteUserManagementPermissions),
         calls := [],
         audits := [{ event := "deleteScheme", status := .fail, meta := [] }] }) ∧
    (env.licensePresent = true → env.customPermissionsSchemes = true →
     env.hasPermissionTo PermissionSysconsoleWriteUserManagementPermissions = false →
     env.getScheme p.schemeId = .ok s →
     Api4.patchScheme env { params := p, err := none } (some patch) =
       { err := some (permissionError PermissionSysconsoleWriteUserManagementPermissions),
         calls := ["GetScheme"],
         audits := [{ event := "patchScheme", status := .fail,
                      meta := [("scheme", s)] }] }) ∧
    (env.hasPermissionToUser p.userId = false →
     Api4.updatePreferences env { params := p, err := none } body =
       { err := some (permissionError PermissionEditOtherUsers), calls := [],
         audits := [{ event := "updatePreferences", status := .fail, meta := [] }] } ∧
     Api4.deletePreferences env { params := p, err := none } body =
       { err := some (permissionError PermissionEditOtherUsers), calls := [],
         audits := [{ event := "deletePreferences", status := .fail, meta := [] }] }) ∧
    (env.hasPermissionToUser p.userId = true →
     (Api4.checkPrefs env prefs).2 = some (permissionError PermissionReadChannel) →
     Api4.updatePreferences env { params := p, err := none } (some prefs) =
       { err := some (permissionError PermissionReadChannel),
         calls := (Api4.checkPrefs env prefs).1,
         audits := [{ event := "updatePreferences", status := .fail, meta := [] }] } ∧
     ∀ x ∈ (Api4.checkPrefs env prefs).1, x = "GetSinglePost") ∧
    (env.hasPermissionTo PermissionSysconsoleReadUserManagementPermissions = false →
     Api4.getScheme env { params := p, err := none } =
       { err := some (permissionError PermissionSysconsoleReadUserManagementPermissions),
         calls := [], audits := [] } ∧
     Api4.getSchemes env { params := p, err := none } =
       { err := some (permissionError PermissionSysconsoleReadUserManagementPermissions),
         calls := [], audits := [] }) ∧
    (env.hasPermissionTo PermissionSysconsoleReadUserManagementTeams = false →
     Api4.getTeamsForScheme env { params := p, err := none } =
       { err := some (permissionError PermissionSysconsoleReadUserManagementTeams),
         calls := [], audits := [] }) ∧
    (env.hasPermissionTo PermissionSysconsoleReadUserManagementChannels = false →
     Api4.getChannelsForScheme env { params := p, err := none } =
       { err := some (permissionError PermissionSysconsoleReadUserManagementChannels),
         calls := [], audits := [] }) ∧
    (env.hasPermissionToUser p.userId = false →
     Api4.getPreferences env { params := p, err := none } =
       { err := some (permissionError PermissionEditOtherUsers),
         calls := [], audits := [] } ∧
     Api4.getPreferencesByCategory env { params := p, err := none } =
       { err := some (permissionError PermissionEditOtherUsers),
         calls := [], audits := [] } ∧
     Api4.getPreferenceByCategoryAndName env { params := p, err := none } =
       { err := some (permissionError PermissionEditOtherUsers),
         calls := [], audits := [] }) := by
  refine ⟨fun h1 h2 h3 => ?_, fun h1 h2 h3 h4 => ?_, fun h1 => ?_,
          fun h1 h2 => ?_, fun h1 => ?_, fun h1 => ?_, fun h1 => ?_,
          fun h1 => ?_⟩
  · exact ⟨by simp [Api4.createScheme, h1, h2, h3],
           by simp [Api4.deleteScheme, Api4.Context.RequireSchemeId, hs, h1, h2, h3]⟩
  · simp [Api4.patchScheme, Api4.Context.RequireSchemeId, hs, h1, h2, h3, h4]
  · exact ⟨by simp [Api4.updatePreferences, Api4.Context.RequireUserId, hu, h1],
           by simp [Api4.deletePreferences, Api4.Context.RequireUserId, hu, h1]⟩
  · refine ⟨?_, fun x hx => checkPrefs_calls_getSinglePost env prefs x hx⟩
    rcases hcp : Api4.checkPrefs env prefs with ⟨cs, e⟩
    rw [hcp] at h2
    simp only at h2
    subst h2
    simp [Api4.updatePreferences, Api4.Context.RequireUserId, hu, h1, hcp]
  · exact ⟨by simp [Api4.getScheme, Api4.Context.RequireSchemeId, hs, h1],
           by simp [Api4.getSchemes, h1]⟩
  · simp [Api4.getTeamsForScheme, Api4.Context.RequireSchemeId, hs, h1]
  · simp [Api4.getChannelsForScheme, Api4.Context.RequireSchemeId, hs, h1]
  · refine ⟨?_, ?_, ?_⟩ <;>
      simp [Api4.getPreferences, Api4.getPreferencesByCategory,
        Api4.getPreferenceByCategoryAndName, Api4.Context.RequireUserId,
        Api4.Context.RequireCategory, Api4.Context.RequirePreferenceName,
        hu, hc, hn, h1]

/-- Witness for the amended C2 at concrete inputs: permission-denied requests
against every handler, including the resource-loading ones. -/
theorem C2_amended_witness :
    Api4.createScheme envDeny (some schemeW) =
      { err := some (permissionError PermissionSysconsoleWriteUserManagementPermissions),
        calls := [],
        audits := [{ event := "createScheme", status := .fail,
                     meta := [("scheme", schemeW)] }] } ∧
    Api4.patchScheme envDeny { params := pFull, err := none } (some patchW) =
      { err := some (permissionError PermissionSysconsoleWriteUserManagementPermissions),
        calls := ["GetScheme"],
        audits := [{ event := "patchScheme", status := .fail,
                     meta := [("scheme", { id := "scheme1", scope := "team" })] }] } ∧
    Api4.updatePreferences envDeny { params := pFull, err := none } none =
      { err := some (permissionError PermissionEditOtherUsers), calls := [],
        audits := [{ event := "updatePreferences", status := .fail, meta := [] }] } ∧
    (Api4.updatePreferences envChanDeny { params := pFull, err := none }
        (some [prefFlagged]) =
      { err := some (permissionError PermissionReadChannel),
        calls := (Api4.checkPrefs envChanDeny [prefFlagged]).1,
        audits := [{ event := "updatePreferences", status := .fail, meta := [] }] }) ∧
    Api4.getScheme envDeny { params := pFull, err := none } =
      { err := some (permissionError PermissionSysconsoleReadUserManagementPermissions),
        calls := [], audits := [] } ∧
    Api4.getTeamsForScheme envDeny { params := pFull, err := none } =
      { err := some (permissionError PermissionSysconsoleReadUserManagementTeams),
        calls := [], audits := [] } ∧
    Api4.getChannelsForScheme envDeny { params := pFull, err := none } =
      { err := some (permissionError PermissionSysconsoleReadUserManagementChannels),
        calls := [], audits := [] } ∧
    Api4.getPreferenceByCategoryAndName envDeny { params := pFull, err := none } =
      { err := some (permissionError PermissionEditOtherUsers),
        calls := [], audits := [] } := by
  have h1 := C2_amended_auth_failure_one_fail_audit envDeny pFull schemeW
    { id := "scheme1", scope := "team" } patchW [] none
    (by decide) (by decide) (by decide) (by decide)
  have h2 := C2_amended_auth_failure_one_fail_audit envChanDeny pFull schemeW
    { id := "scheme1", scope := "team" } patchW [prefFlagged] none
    (by decide) (by decide) (by decide) (by decide)
  exact ⟨(h1.1 rfl rfl rfl).1, h1.2.1 rfl rfl rfl rfl,
         (h1.2.2.1 rfl).1, (h2.2.2.2.1 rfl rfl).1,
         (h1.2.2.2.2.1 rfl).1, h1.2.2.2.2.2.1 rfl,
         h1.2.2.2.2.2.2.1 rfl, (h1.2.2.2.2.2.2.2 rfl).2.2⟩

/-- Like `envAllow` but `GetSinglePost` fails with an upstream 404. -/
def envPostErr : Api4.Env :=
  { envAllow with
    getSinglePost := fun _ => .error { id := "app.post.get.app_error", status := 404 } }

/-- A concrete upstream facade error. -/
def errW : AppError := { id := "app.upstream.err", status := 404 }

/-- Like `envAllow` but every facade call fails with `errW`. -/
def envErr : Api4.Env :=
  { envAllow with
    createScheme := fun _ => .error errW
    getScheme := fun _ => .error errW
    getSchemesPage := fun _ _ _ => .error errW
    patchScheme := fun _ _ => .error errW
    deleteScheme := fun _ => .error errW
    getTeamsForSchemePage := fun _ _ _ => .error errW
    getChannelsForSchemePage := fun _ _ _ => .error errW
    getPreferencesForUser := fun _ => .error errW
    getPreferenceByCategoryForUser := fun _ _ => .error errW
    getPreferenceByCategoryAndNameForUser := fun _ _ _ => .error errW
    updatePreferences := fun _ _ => some errW
    deletePreferences := fun _ _ => some errW }

/-- Like `envErr` but `getScheme` succeeds with a team-scoped scheme. -/
def envErrTeam : Api4.Env :=
  { envErr with getScheme := fun i => .ok { id := i, scope := "team" } }

/-- Like `envErr` but `getScheme` succeeds with a channel-scoped scheme. -/
def envErrChannel : Api4.Env :=
  { envErr with getScheme := fun i => .ok { id := i, scope := "channel" } }

/-- C4 counterexample: in `updatePreferences` a `GetSinglePost` facade error
(id "app.post.get.app_error", HTTP 404) is not assigned to the error slot
verbatim — the handler substitutes the InvalidParameter error
"preference.name" (HTTP 400) for it. -/
theorem C4_counterexample :
    envPostErr.getSinglePost "post1" =
      .error { id := "app.post.get.app_error", status := 404 } ∧
    (Api4.updatePreferences envPostErr { params := pFull, err := none }
        (some [prefFlagged])).err = some (invalidParamError "preference.name") ∧
    invalidParamError "preference.name" ≠
      { id := "app.post.get.app_error", status := 404 } :=
  ⟨rfl, by decide, by decide⟩

/-- C4 (amended): every error returned by a business-facade call is assigned
to the request's error slot verbatim — same id and status — with the single
exception of `GetSinglePost` in `updatePreferences`, whose failure the
handler reports as the InvalidParameter error "preference.name" (HTTP 400)
instead of the facade error. -/
theorem C4_amended_facade_error_verbatim
    (env : Api4.Env) (p : Api4.Params) (scheme s : Scheme) (patch : SchemePatch)
    (prefs : List Preference) (cs : List String) (e : AppError)
    (hs : p.schemeId ≠ "") (hu : p.userId ≠ "")
    (hc : p.category ≠ "") (hn : p.preferenceName ≠ "") :
    (env.hasPermissionTo PermissionSysconsoleReadUserManagementPermissions = true →
     env.getScheme p.schemeId = .error e →
     Api4.getScheme env { params := p, err := none } =
       { err := some e, calls := ["GetScheme"], audits := [] }) ∧
    (env.hasPermissionTo PermissionSysconsoleReadUserManagementPermissions = true →
     p.scope = "" → env.getSchemesPage "" p.page p.perPage = .error e →
     Api4.getSchemes env { params := p, err := none } =
       { err := some e, calls := ["GetSchemesPage"], audits := [] }) ∧
    (env.hasPermissionTo PermissionSysconsoleReadUserManagementTeams = true →
     env.getScheme p.schemeId = .error e →
     Api4.getTeamsForScheme env { params := p, err := none } =
       { err := some e, calls := ["GetScheme"], audits := [] }) ∧
    (env.hasPermissionTo PermissionSysconsoleReadUserManagementTeams = true →
     env.getScheme p.schemeId = .ok s → s.scope = SchemeScopeTeam →
     env.getTeamsForSchemePage s p.page p.perPage = .error e →
     Api4.getTeamsForScheme env { params := p, err := none } =
       { err := some e, calls := ["GetScheme", "GetTeamsForSchemePage"],
         audits := [] }) ∧
    (env.hasPermissionTo PermissionSysconsoleReadUserManagementChannels = true →
     env.getScheme p.schemeId = .error e →
     Api4.getChannelsForScheme env { params := p, err := none } =
       { err := some e, calls := ["GetScheme"], audits := [] }) ∧
    (env.hasPermissionTo PermissionSysconsoleReadUserManagementChannels = true →
     env.getScheme p.schemeId = .ok s → s.scope = SchemeScopeChannel →
     env.getChannelsForSchemePage s p.page p.perPage = .error e →
     Api4.getChannelsForScheme env { params := p, err := none } =
       { err := some e, calls := ["GetScheme", "GetChannelsForSchemePage"],
         audits := [] }) ∧
    (env.licensePresent = true → env.customPermissionsSchemes = true →
     env.hasPermissionTo PermissionSysconsoleWriteUserManagementPermissions = true →
     env.createScheme scheme = .error e →
     Api4.createScheme env (some scheme) =
       { err := some e, calls := ["CreateScheme"],
         audits := [{ event := "createScheme", status := .fail,
                      meta := [("scheme", scheme)] }] }) ∧
    (env.licensePresent = true → env.customPermissionsSchemes = true →
     env.getScheme p.schemeId = .error e →
     Api4.patchScheme env { params := p, err := none } (some patch) =
       { err := some e, calls := ["GetScheme"],
         audits := [{ event := "patchScheme", status := .fail, meta := [] }] }) ∧
    (env.licensePresent = true → env.customPermissionsSchemes = true →
     env.hasPermissionTo PermissionSysconsoleWriteUserManagementPermissions = true →
     env.getScheme p.schemeId = .ok s → env.patchScheme s patch = .error e →
     Api4.patchScheme env { params := p, err := none } (some patch) =
       { err := some e, calls := ["GetScheme", "PatchScheme"],
         audits := [{ event := "patchScheme", status := .fail,
                      meta := [("scheme", s)] }] }) ∧
    (env.licensePresent = true → env.customPermissionsSchemes = true →
     env.hasPermissionTo PermissionSysconsoleWriteUserManagementPermissions = true →
     env.deleteScheme p.schemeId = .error e →
     Api4.deleteScheme env { params := p, err := none } =
       { err := some e, calls := ["DeleteScheme"],
         audits := [{ event := "deleteScheme", status := .fail, meta := [] }] }) ∧
    (env.hasPermissionToUser p.userId = true →
     env.getPreferencesForUser p.userId = .error e →
     Api4.getPreferences env { params := p, err := none } =
       { err := some e, calls := ["GetPreferencesForUser"], audits := [] }) ∧
    (env.hasPermissionToUser p.userId = true →
     env.getPreferenceByCategoryForUser p.userId p.category = .error e →
     Api4.getPreferencesByCategory env { params := p, err := none } =
       { err := some e, calls := ["GetPreferenceByCategoryForUser"],
         audits := [] }) ∧
    (env.hasPermissionToUser p.userId = true →
     env.getPreferenceByCategoryAndNameForUser p.userId p.category
       p.preferenceName = .error e →
     Api4.getPreferenceByCategoryAndName env { params := p, err := none } =
       { err := some e, calls := ["GetPreferenceByCategoryAndNameForUser"],
         audits := [] }) ∧
    (env.hasPermissionToUser p.userId = true →
     Api4.checkPrefs env prefs = (cs, none) →
     env.updatePreferences p.userId prefs = some e →
     Api4.updatePreferences env { params := p, err := none } (some prefs) =
       { err := some e, calls := cs ++ ["UpdatePreferences"],
         audits := [{ event := "updatePreferences", status := .fail,
                      meta := [] }] }) ∧
    (env.hasPermissionToUser p.userId = true →
     env.deletePreferences p.userId prefs = some e →
     Api4.deletePreferences env { params := p, err := none } (some prefs) =
       { err := some e, calls := ["DeletePreferences"],
         audits := [{ event := "deletePreferences", status := .fail,
                      meta := [] }] }) ∧
    (∀ pr rest, env.hasPermissionToUser p.userId = true →
     pr.category = PreferenceCategoryFlaggedPost →
     env.getSinglePost pr.name = .error e →
     Api4.updatePreferences env { params := p, err := none } (some (pr :: rest)) =
       { err := some (invalidParamError "preference.name"),
         calls := ["GetSinglePost"],
         audits := [{ event := "updatePreferences", status := .fail,
                      meta := [] }] }) := by
  refine ⟨fun h1 h2 => ?_, fun h1 h2 h3 => ?_, fun h1 h2 => ?_,
          fun h1 h2 h3 h4 => ?_, fun h1 h2 => ?_, fun h1 h2 h3 h4 => ?_,
          fun h1 h2 h3 h4 => ?_, fun h1 h2 h3 => ?_, fun h1 h2 h3 h4 h5 => ?_,
          fun h1 h2 h3 h4 => ?_, fun h1 h2 => ?_, fun h1 h2 => ?_,
          fun h1 h2 => ?_, fun h1 h2 h3 => ?_, fun h1 h2 => ?_,
          fun pr rest h1 h2 h3 => ?_⟩
  · simp [Api4.getScheme, Api4.Context.RequireSchemeId, hs, h1, h2]
  · simp [Api4.getSchemes, h1, h2, h3]
  · simp [Api4.getTeamsForScheme, Api4.Context.RequireSchemeId, hs, h1, h2]
  · simp [Api4.getTeamsForScheme, Api4.Context.RequireSchemeId, hs, h1, h2, h3, h4]
  · simp [Api4.getChannelsForScheme, Api4.Context.RequireSchemeId, hs, h1, h2]
  · simp [Api4.getChannelsForScheme, Api4.Context.RequireSchemeId, hs, h1, h2, h3, h4]
  · simp [Api4.createScheme, h1, h2, h3, h4]
  · simp [Api4.patchScheme, Api4.Context.RequireSchemeId, hs, h1, h2, h3]
  · simp [Api4.patchScheme, Api4.Context.RequireSchemeId, hs, h1, h2, h3, h4, h5]
  · simp [Api4.deleteScheme, Api4.Context.RequireSchemeId, hs, h1, h2, h3, h4]
  · simp [Api4.getPreferences, Api4.Context.RequireUserId, hu, h1, h2]
  · simp [Api4.getPreferencesByCategory, Api4.Context.RequireUserId,
      Api4.Context.RequireCategory, hu, hc, h1, h2]
  · simp [Api4.getPreferenceByCategoryAndName, Api4.Context.RequireUserId,
      Api4.Context.RequireCategory, Api4.Context.RequirePreferenceName,
      hu, hc, hn, h1, h2]
  · simp [Api4.updatePreferences, Api4.Context.RequireUserId, hu, h1, h2, h3]
  · simp [Api4.deletePreferences, Api4.Context.RequireUserId, hu, h1, h2]
  · simp [Api4.updatePreferences, Api4.Context.RequireUserId,
      Api4.checkPrefs, hu, h1, h2, h3]

/-- Witness for the amended C4 at concrete inputs: a 404 upstream error is
passed through verbatim at every facade call site, and the `GetSinglePost`
exception is reported as InvalidParameter "preference.name". -/
theorem C4_amended_witness :
    Api4.getScheme envErr { params := pFull, err := none } =
      { err := some errW, calls := ["GetScheme"], audits := [] } ∧
    Api4.getSchemes envErr { params := pFull, err := none } =
      { err := some errW, calls := ["GetSchemesPage"], audits := [] } ∧
    Api4.getTeamsForScheme envErr { params := pFull, err := none } =
      { err := some errW, calls := ["GetScheme"], audits := [] } ∧
    Api4.getTeamsForScheme envErrTeam { params := pFull, err := none } =
      { err := some errW, calls := ["GetScheme", "GetTeamsForSchemePage"],
        audits := [] } ∧
    Api4.getChannelsForScheme envErr { params := pFull, err := none } =
      { err := some errW, calls := ["GetScheme"], audits := [] } ∧
    Api4.getChannelsForScheme envErrChannel { params := pFull, err := none } =
      { err := some errW, calls := ["GetScheme", "GetChannelsForSchemePage"],
        audits := [] } ∧
    Api4.createScheme envErr (some schemeW) =
      { err := some errW, calls := ["CreateScheme"],
        audits := [{ event := "createScheme", status := .fail,
                     meta := [("scheme", schemeW)] }] } ∧
    Api4.patchScheme envErr { params := pFull, err := none } (some patchW) =
      { err := some errW, calls := ["GetScheme"],
        audits := [{ event := "patchScheme", status := .fail, meta := [] }] } ∧
    Api4.patchScheme envErrTeam { params := pFull, err := none } (some patchW) =
      { err := some errW, calls := ["GetScheme", "PatchScheme"],
        audits := [{ event := "patchScheme", status := .fail,
                     meta := [("scheme", { id := "scheme1", scope := "team" })] }] } ∧
    Api4.deleteScheme envErr { params := pFull, err := none } =
      { err := some errW, calls := ["DeleteScheme"],
        audits := [{ event := "deleteScheme", status := .fail, meta := [] }] } ∧
    Api4.getPreferences envErr { params := pFull, err := none } =
      { err := some errW, calls := ["GetPreferencesForUser"], audits := [] } ∧
    Api4.getPreferencesByCategory envErr { params := pFull, err := none } =
      { err := some errW, calls := ["GetPreferenceByCategoryForUser"],
        audits := [] } ∧
    Api4.getPreferenceByCategoryAndName envErr { params := pFull, err := none } =
      { err := some errW, calls := ["GetPreferenceByCategoryAndNameForUser"],
        audits := [] } ∧
    Api4.updatePreferences envErr { params := pFull, err := none }
        (some [prefPlain]) =
      { err := some errW, calls := ["UpdatePreferences"],
        audits := [{ event := "updatePreferences", status := .fail,
                     meta := [] }] } ∧
    Api4.deletePreferences envErr { params := pFull, err := none }
        (some [prefPlain]) =
      { err := some errW, calls := ["DeletePreferences"],
        audits := [{ event := "deletePreferences", status := .fail,
                     meta := [] }] } ∧
    Api4.updatePreferences envPostErr { params := pFull, err := none }
        (some [prefFlagged]) =
      { err := some (invalidParamError "preference.name"),
        calls := ["GetSinglePost"],
        audits := [{ event := "updatePreferences", status := .fail,
                     meta := [] }] } := by
  have h1 := C4_amended_facade_error_verbatim envErr pFull schemeW
    { id := "scheme1", scope := "team" } patchW [prefPlain] [] errW
    (by decide) (by decide) (by decide) (by decide)
  have h2 := C4_amended_facade_error_verbatim envErrTeam pFull schemeW
    { id := "scheme1", scope := "team" } patchW [prefPlain] [] errW
    (by decide) (by decide) (by decide) (by decide)
  have h3 := C4_amended_facade_error_verbatim envErrChannel pFull schemeW
    { id := "scheme1", scope := "channel" } patchW [prefPlain] [] errW
    (by decide) (by decide) (by decide) (by decide)
  have h4 := C4_amended_facade_error_verbatim envPostErr pFull schemeW
    { id := "scheme1", scope := "team" } patchW [prefFlagged] []
    { id := "app.post.get.app_error", status := 404 }
    (by decide) (by decide) (by decide) (by decide)
  refine ⟨h1.1 rfl rfl, h1.2.1 rfl rfl rfl, h1.2.2.1 rfl rfl,
          h2.2.2.2.1 rfl rfl rfl rfl, h1.2.2.2.2.1 rfl rfl,
          h3.2.2.2.2.2.1 rfl rfl rfl rfl,
          h1.2.2.2.2.2.2.1 rfl rfl rfl rfl,
          h1.2.2.2.2.2.2.2.1 rfl rfl rfl,
          h2.2.2.2.2.2.2.2.2.1 rfl rfl rfl rfl rfl,
          h1.2.2.2.2.2.2.2.2.2.1 rfl rfl rfl rfl,
          h1.2.2.2.2.2.2.2.2.2.2.1 rfl rfl,
          h1.2.2.2.2.2.2.2.2.2.2.2.1 rfl rfl,
          h1.2.2.2.2.2.2.2.2.2.2.2.2.1 rfl rfl,
          h1.2.2.2.2.2.2.2.2.2.2.2.2.2.1 rfl rfl rfl,
          h1.2.2.2.2.2.2.2.2.2.2.2.2.2.2.1 rfl rfl,
          h4.2.2.2.2.2.2.2.2.2.2.2.2.2.2.2 prefFlagged [] rfl rfl rfl⟩
